import Mathlib

/-!
Shallow embedding of the SNAP classification core of the benefits-onboard
repository: `server/app/snap_classification/{constants,helpers,rules,classifiers}.py`
together with the result data model in `server/app/models.py`.

Python strings are modelled as lists of Unicode code points (`List Nat`).
A dictionary field is modelled as missing, present-with-`None`, or a value,
and the places where the Python code can raise (`.strip()` on `None`,
ordering comparisons against `None`, `.get` on `None`) are modelled by an
explicit exception result.  Amounts are modelled as rationals.
-/

namespace Snap

/-- Python strings, as lists of Unicode code points. -/
abbrev PyStr := List Nat

/-- Code points of a Lean string literal. -/
def pys (s : String) : PyStr := s.data.map Char.toNat

/-- ASCII lower-casing of one code point (models `str.lower` on the ASCII
data this code base uses). -/
def lowerChar (c : Nat) : Nat := if 65 ≤ c ∧ c ≤ 90 then c + 32 else c

/-- ASCII upper-casing of one code point (models `str.upper`). -/
def upperChar (c : Nat) : Nat := if 97 ≤ c ∧ c ≤ 122 then c - 32 else c

/-- Whitespace code points removed by `str.strip()`. -/
def isSpaceChar (c : Nat) : Bool :=
  decide (c = 32 ∨ c = 9 ∨ c = 10 ∨ c = 13 ∨ c = 11 ∨ c = 12)

/-- Models `str.lower()`. -/
def pyLower (s : PyStr) : PyStr := s.map lowerChar

/-- Models `str.upper()`. -/
def pyUpper (s : PyStr) : PyStr := s.map upperChar

/-- Models `str.strip()`. -/
def pyStrip (s : PyStr) : PyStr :=
  ((s.dropWhile isSpaceChar).reverse.dropWhile isSpaceChar).reverse

/-- `startsWith hay needle` holds when `needle` is a prefix of `hay`. -/
def startsWith : PyStr → PyStr → Bool
  | _, [] => true
  | [], _ :: _ => false
  | a :: as, b :: bs => a == b && startsWith as bs

/-- Models the Python substring test `needle in hay`. -/
def pyContains (hay needle : PyStr) : Bool :=
  match hay with
  | [] => startsWith [] needle
  | _ :: t => startsWith hay needle || pyContains t needle

/-- A dictionary field: key missing, key present with Python `None`, or a value. -/
inductive Fld (α : Type) where
  | absent
  | nul
  | val (a : α)
deriving DecidableEq

/-- Python exceptions the modelled code can raise. -/
inductive PyErr where
  | attributeError
  | typeError
deriving DecidableEq

/-- Result of running a piece of Python code: a value or a raised exception. -/
inductive PyRes (α : Type) where
  | ok (a : α)
  | exn (e : PyErr)
deriving DecidableEq

/-- Models `d.get(key, default)`; `Option.none` is Python `None`. -/
def Fld.getD {α : Type} : Fld α → α → Option α
  | .absent, d => some d
  | .nul, _ => Option.none
  | .val a, _ => some a

/-- Models `d.get(key)` (implicit default `None`). -/
def Fld.getN {α : Type} : Fld α → Option α
  | .absent => Option.none
  | .nul => Option.none
  | .val a => some a

/-- Whether the key is missing from the dictionary. -/
def Fld.isAbsent {α : Type} : Fld α → Bool
  | .absent => true
  | _ => false

/-- Models `x or ""` for a possibly-`None` string. -/
def orEmpty (x : Option PyStr) : PyStr := x.getD []

/-- Models `str(x)` for a possibly-`None` string (`str(None)` is `"None"`). -/
def pyStrOf (x : Option PyStr) : PyStr :=
  match x with
  | Option.none => pys ("None")
  | some s => s

/-- Models `x.strip().lower()`; raises `AttributeError` when `x` is `None`. -/
def stripLower (x : Option PyStr) : PyRes PyStr :=
  match x with
  | Option.none => .exn .attributeError
  | some s => .ok (pyLower (pyStrip s))

/-- Models `x.strip().upper()`; raises `AttributeError` when `x` is `None`. -/
def stripUpper (x : Option PyStr) : PyRes PyStr :=
  match x with
  | Option.none => .exn .attributeError
  | some s => .ok (pyUpper (pyStrip s))

/-- Models `x <= y`; raises `TypeError` when `x` is `None`. -/
def pyLe (x : Option ℚ) (y : ℚ) : PyRes Bool :=
  match x with
  | Option.none => .exn .typeError
  | some q => .ok (decide (q ≤ y))

/-- Models `x < y`; raises `TypeError` when `x` is `None`. -/
def pyLt (x : Option ℚ) (y : ℚ) : PyRes Bool :=
  match x with
  | Option.none => .exn .typeError
  | some q => .ok (decide (q < y))

/-- IncomeState from `app/models.py`. -/
inductive IncomeState where
  | COUNTABLE_INCOME
  | EXCLUDED_INCOME
  | NOT_INCOME
  | FLAG_FOR_REVIEW
deriving DecidableEq

/-- IncomeType from `app/models.py`. -/
inductive IncomeType where
  | EARNED_INCOME
  | UNEARNED_INCOME
deriving DecidableEq

/-- ExpenseState from `app/models.py`. -/
inductive ExpenseState where
  | COUNTABLE_DEDUCTION
  | NOT_DEDUCTIBLE
  | NOT_EXPENSE
  | FLAG_FOR_REVIEW
deriving DecidableEq

/-- DeductionType from `app/models.py`. -/
inductive DeductionType where
  | SHELTER
  | UTILITIES
  | MEDICAL
  | CHILDCARE
  | CHILD_SUPPORT_PAID
  | LEGAL_CHILD_SUPPORT
  | NONE
deriving DecidableEq

/-- Confidence from `app/models.py`. -/
inductive Confidence where
  | HIGH
  | MEDIUM
  | LOW
deriving DecidableEq

/-- SnapClassification (income result) from `app/models.py`. -/
structure SnapClassification where
  final_state : IncomeState
  income_type : Option IncomeType
  category : Option PyStr
  reason_code : Option PyStr
  confidence : Confidence
deriving DecidableEq

/-- ExpenseClassification (deduction result) from `app/models.py`. -/
structure ExpenseClassification where
  final_state : ExpenseState
  deduction_type : Option DeductionType
  category : Option PyStr
  reason_code : Option PyStr
  confidence : Confidence
deriving DecidableEq

/-- The `personal_finance_category` sub-dictionary (`primary`/`detailed` keys). -/
structure PlaidCat where
  primary : Fld PyStr
  detailed : Fld PyStr
deriving DecidableEq

/-- Python truthiness of the category dict: `{}` is falsy, a dict with at
least one key present is truthy.  The model covers dicts whose keys are
among `primary`/`detailed`. -/
def PlaidCat.isTruthy (c : PlaidCat) : Bool :=
  !(c.primary.isAbsent && c.detailed.isAbsent)

/-- A transaction dictionary, restricted to the keys the classifier reads. -/
structure Txn where
  description : Fld PyStr
  amount : Fld ℚ
  direction : Fld PyStr
  type : Fld PyStr
  merchant_name : Fld PyStr
  personal_finance_category : Fld PlaidCat
deriving DecidableEq

/-- The rules' shared `desc = (transaction.get("description") or "").strip().lower()`. -/
def Txn.descNorm (t : Txn) : PyStr := pyLower (pyStrip (orEmpty t.description.getN))

/-- The rules' `merchant_name = (transaction.get("merchant_name") or "").strip().lower()`. -/
def Txn.merchNorm (t : Txn) : PyStr := pyLower (pyStrip (orEmpty t.merchant_name.getN))

/-- The `(transaction.get("type") or "").strip().lower()` read used by NotExpenseRule. -/
def Txn.typeNorm (t : Txn) : PyStr := pyLower (pyStrip (orEmpty t.type.getN))

/-- EXCLUDE_KEYWORDS from `snap_classification/constants.py`. -/
def EXCLUDE_KEYWORDS : List PyStr :=
  [pys ("transfer"), pys ("zelle from self"), pys ("from my account"), pys ("internal transfer")]

/-- NOT_INCOME_KEYWORDS from `snap_classification/constants.py`. -/
def NOT_INCOME_KEYWORDS : List PyStr :=
  [pys ("reimbursement"), pys ("refund"), pys ("chargeback"), pys ("returned item"),
   pys ("cash advance"), pys ("loan"), pys ("disbursement"),
   pys ("venmo transfer between"), pys ("paypal transfer between")]

/-- EARNED_KEYWORDS from `snap_classification/constants.py`. -/
def EARNED_KEYWORDS : List PyStr :=
  [pys ("payroll"), pys ("paycheck"), pys ("wages"), pys ("salary"),
   pys ("direct deposit"), pys ("adp"), pys ("gusto"), pys ("workday"),
   pys ("paychex"), pys ("square payroll")]

/-- UNEARNED_KEYWORDS from `snap_classification/constants.py`. -/
def UNEARNED_KEYWORDS : List PyStr :=
  [pys ("unemployment"), pys ("social security"), pys ("ssi"), pys ("ssdi"),
   pys ("pension"), pys ("child support"), pys ("alimony")]

/-- BANK_INTEREST_KEYWORDS from `snap_classification/constants.py`. -/
def BANK_INTEREST_KEYWORDS : List PyStr :=
  [pys ("interest earned"), pys ("interest"), pys ("int earned")]

/-- TRANSFER_KEYWORDS from `snap_classification/constants.py`. -/
def TRANSFER_KEYWORDS : List PyStr :=
  [pys ("transfer"), pys ("to savings"), pys ("internal transfer"),
   pys ("zelle to self"), pys ("venmo to self"), pys ("cash app to self")]

/-- CREDIT_CARD_PAYMENT_KEYWORDS from `snap_classification/constants.py`. -/
def CREDIT_CARD_PAYMENT_KEYWORDS : List PyStr :=
  [pys ("credit card payment"), pys ("cc payment"), pys ("payment to chase"),
   pys ("payment to amex"), pys ("payment to citi"), pys ("card payment")]

/-- SHELTER_KEYWORDS from `snap_classification/constants.py`. -/
def SHELTER_KEYWORDS : List PyStr :=
  [pys ("rent"), pys ("landlord"), pys ("property mgmt"), pys ("property management"),
   pys ("leasing"), pys ("apt"), pys ("apartment"), pys ("mortgage"), pys ("mtg")]

/-- UTILITY_KEYWORDS from `snap_classification/constants.py`. -/
def UTILITY_KEYWORDS : List PyStr :=
  [pys ("coned"), pys ("con ed"), pys ("con edison"), pys ("national grid"),
   pys ("electric"), pys ("gas bill"), pys ("energy"), pys ("xcel"), pys ("water"),
   pys ("sewer"), pys ("trash"), pys ("waste"), pys ("utility"), pys ("internet"),
   pys ("spectrum"), pys ("verizon fios"), pys ("comcast"), pys ("xfinity"),
   pys ("heat"), pys ("heating")]

/-- INTERNET_KEYWORDS from `snap_classification/constants.py`. -/
def INTERNET_KEYWORDS : List PyStr :=
  [pys ("internet"), pys ("fios"), pys ("spectrum"), pys ("comcast"), pys ("xfinity")]

/-- ELECTRIC_KEYWORDS from `snap_classification/constants.py`. -/
def ELECTRIC_KEYWORDS : List PyStr :=
  [pys ("electric"), pys ("coned"), pys ("con ed"), pys ("con edison")]

/-- GAS_KEYWORDS from `snap_classification/constants.py`. -/
def GAS_KEYWORDS : List PyStr :=
  [pys ("national grid"), pys ("gas bill"), pys ("gas")]

/-- CHILDCARE_KEYWORDS from `snap_classification/constants.py`. -/
def CHILDCARE_KEYWORDS : List PyStr :=
  [pys ("daycare"), pys ("childcare"), pys ("child care"), pys ("nursery"),
   pys ("preschool"), pys ("after school"), pys ("babysitter"), pys ("nanny"),
   pys ("care.com"), pys ("bright horizons"), pys ("kindercare")]

/-- MEDICAL_KEYWORDS from `snap_classification/constants.py`. -/
def MEDICAL_KEYWORDS : List PyStr :=
  [pys ("pharmacy"), pys ("rx"), pys ("prescription"), pys ("copay"), pys ("co-pay"),
   pys ("hospital"), pys ("clinic"), pys ("medical"), pys ("doctor"), pys ("dental"),
   pys ("vision"), pys ("therap"), pys ("medicare"), pys ("medicaid premium")]

/-- CHILD_SUPPORT_KEYWORDS from `snap_classification/constants.py`. -/
def CHILD_SUPPORT_KEYWORDS : List PyStr :=
  [pys ("child support"), pys ("support payment"), pys ("iv-d"), pys ("ocse")]

/-- Helper contains_any_keyword from `snap_classification/helpers.py`. -/
def contains_any_keyword (text : PyStr) (keywords : List PyStr) : Bool :=
  keywords.any (fun k => pyContains text k)

/-- Helper is_utility_category from `snap_classification/helpers.py`.  The
argument is the result of `transaction.get("personal_finance_category", {})`,
so `Option.none` is Python `None` (falsy, returns False). -/
def is_utility_category (pc : Option PlaidCat) : Bool :=
  match pc with
  | Option.none => false
  | some c =>
    if !c.isTruthy then false
    else
      let primary := pyUpper (pyStrOf (c.primary.getD []))
      let detailed := pyUpper (pyStrOf (c.detailed.getD []))
      pyContains primary (pys ("RENT_AND_UTILITIES")) ||
        pyContains detailed (pys ("RENT_AND_UTILITIES")) ||
        pyContains detailed (pys ("GAS_AND_ELECTRICITY")) ||
        pyContains primary (pys ("UTILITIES"))

/-- Helper matches_utility_keyword from `snap_classification/helpers.py`. -/
def matches_utility_keyword (desc merchant_name : PyStr) : Bool :=
  let m := UTILITY_KEYWORDS.any (fun k => pyContains desc k || pyContains merchant_name k)
  if !m && !merchant_name.isEmpty then
    [pys ("energy"), pys ("electric"), pys ("gas"), pys ("utility"), pys ("power")].any
      (fun term => pyContains merchant_name term)
  else
    m

/-- Income rule NotInflowOrNegativeAmountRule.evaluate from `rules.py`.
The Python `direction == INFLOW and amount <= 0` short-circuits, so the
amount is only compared when the direction equals INFLOW. -/
def NotInflowOrNegativeAmountRule (t : Txn) : PyRes (Option SnapClassification) :=
  match stripUpper (t.direction.getD []) with
  | .exn e => .exn e
  | .ok direction =>
    if direction = pys ("INFLOW") then
      match pyLe (t.amount.getD 0) 0 with
      | .exn e => .exn e
      | .ok nonpos =>
        if nonpos then
          .ok (some ⟨.NOT_INCOME, Option.none, Option.none,
            some (pys ("OUTFLOW_OR_NONPOSITIVE")), .HIGH⟩)
        else
          .ok Option.none
    else
      .ok (some ⟨.NOT_INCOME, Option.none, Option.none,
        some (pys ("OUTFLOW_TRANSACTION")), .HIGH⟩)

/-- Income rule NotIncomeKeywordsRule.evaluate from `rules.py`. -/
def NotIncomeKeywordsRule (t : Txn) : PyRes (Option SnapClassification) :=
  if contains_any_keyword t.descNorm NOT_INCOME_KEYWORDS then
    .ok (some ⟨.NOT_INCOME, Option.none, Option.none,
      some (pys ("REIMBURSEMENT_REFUND_LOAN_OR_SIMILAR")), .MEDIUM⟩)
  else
    .ok Option.none

/-- Income rule ExcludeKeywordsRule.evaluate from `rules.py`. -/
def ExcludeKeywordsRule (t : Txn) : PyRes (Option SnapClassification) :=
  if contains_any_keyword t.descNorm EXCLUDE_KEYWORDS then
    .ok (some ⟨.NOT_INCOME, Option.none, Option.none,
      some (pys ("INTERNAL_TRANSFER_OR_NONINCOME_TRANSFER")), .MEDIUM⟩)
  else
    .ok Option.none

/-- Income rule EarnedIncomeRule.evaluate from `rules.py`.  It reads the
type hint with `transaction.get("type", "").strip().lower()`, which raises
when the key is present with value `None`. -/
def EarnedIncomeRule (t : Txn) : PyRes (Option SnapClassification) :=
  match stripLower (t.type.getD []) with
  | .exn e => .exn e
  | .ok txn_type =>
    if contains_any_keyword t.descNorm EARNED_KEYWORDS ||
        pyContains txn_type (pys ("payroll")) then
      .ok (some ⟨.COUNTABLE_INCOME, some .EARNED_INCOME, some (pys ("WAGES_OR_PAYROLL")),
        some (pys ("EARNED_INCOME_SOURCE")), .MEDIUM⟩)
    else
      .ok Option.none

/-- Income rule UnearnedIncomeRule.evaluate from `rules.py`. -/
def UnearnedIncomeRule (t : Txn) : PyRes (Option SnapClassification) :=
  if contains_any_keyword t.descNorm UNEARNED_KEYWORDS then
    .ok (some ⟨.COUNTABLE_INCOME, some .UNEARNED_INCOME, some (pys ("BENEFITS_OR_SUPPORT")),
      some (pys ("UNEARNED_INCOME_SOURCE")), .MEDIUM⟩)
  else
    .ok Option.none

/-- Income rule BankInterestRule.evaluate from `rules.py`. -/
def BankInterestRule (t : Txn) : PyRes (Option SnapClassification) :=
  match stripLower (t.type.getD []) with
  | .exn e => .exn e
  | .ok txn_type =>
    if contains_any_keyword t.descNorm BANK_INTEREST_KEYWORDS ||
        pyContains txn_type (pys ("interest")) then
      .ok (some ⟨.COUNTABLE_INCOME, some .UNEARNED_INCOME, some (pys ("BANK_INTEREST")),
        some (pys ("BANK_INTEREST_IS_UNEARNED_INCOME")), .HIGH⟩)
    else
      .ok Option.none

/-- Income rule GiftOrIrregularRule.evaluate from `rules.py`. -/
def GiftOrIrregularRule (t : Txn) : PyRes (Option SnapClassification) :=
  if pyContains t.descNorm (pys ("gift")) || pyContains t.descNorm (pys ("birthday")) then
    .ok (some ⟨.FLAG_FOR_REVIEW, Option.none, Option.none,
      some (pys ("POSSIBLE_GIFT_OR_IRREGULAR_INCOME")), .LOW⟩)
  else
    .ok Option.none

/-- Income rule DefaultIncomeRule.evaluate from `rules.py`. -/
def DefaultIncomeRule (_t : Txn) : SnapClassification :=
  ⟨.FLAG_FOR_REVIEW, Option.none, Option.none, some (pys ("UNKNOWN_SOURCE")), .LOW⟩

/-- The rule loop of classify_income from `classifiers.py`: first match wins,
exceptions propagate, the default rule runs when no rule matched. -/
def runIncomeRules : List (Txn → PyRes (Option SnapClassification)) → Txn → PyRes SnapClassification
  | [], t => .ok (DefaultIncomeRule t)
  | r :: rs, t =>
    match r t with
    | .exn e => .exn e
    | .ok (some c) => .ok c
    | .ok Option.none => runIncomeRules rs t

/-- INCOME_RULES from `classifiers.py`, in evaluation order. -/
def INCOME_RULES : List (Txn → PyRes (Option SnapClassification)) :=
  [NotInflowOrNegativeAmountRule, NotIncomeKeywordsRule, ExcludeKeywordsRule,
   EarnedIncomeRule, UnearnedIncomeRule, BankInterestRule, GiftOrIrregularRule]

/-- classify_income from `classifiers.py`. -/
def classify_income (t : Txn) : PyRes SnapClassification := runIncomeRules INCOME_RULES t

/-- Expense rule MissingAmountRule.evaluate from `rules.py`: fires only when
`transaction.get("amount", 0)` is `None`, i.e. when the key is present with
a null value (an absent key yields the default `0`). -/
def MissingAmountRule (t : Txn) : PyRes (Option ExpenseClassification) :=
  if (t.amount.getD 0).isNone then
    .ok (some ⟨.FLAG_FOR_REVIEW, Option.none, Option.none,
      some (pys ("MISSING_AMOUNT")), .LOW⟩)
  else
    .ok Option.none

/-- Expense rule NotExpenseRule.evaluate from `rules.py`.  The Python
`is_expense = type == "expense" or direction == "OUTFLOW" or amount < 0`
short-circuits, so the amount is only compared when both earlier tests fail. -/
def NotExpenseRule (t : Txn) : PyRes (Option ExpenseClassification) :=
  match stripUpper (t.direction.getD []) with
  | .exn e => .exn e
  | .ok direction =>
    match (if t.typeNorm = pys ("expense") then .ok true
           else if direction = pys ("OUTFLOW") then .ok true
           else pyLt (t.amount.getD 0) 0 : PyRes Bool) with
    | .exn e => .exn e
    | .ok is_expense =>
      if !is_expense then
        .ok (some ⟨.NOT_EXPENSE, Option.none, Option.none,
          some (pys ("NOT_AN_EXPENSE_TRANSACTION")), .HIGH⟩)
      else
        .ok Option.none

/-- Expense rule TransferKeywordsRule.evaluate from `rules.py`. -/
def TransferKeywordsRule (t : Txn) : PyRes (Option ExpenseClassification) :=
  if contains_any_keyword t.descNorm TRANSFER_KEYWORDS then
    .ok (some ⟨.NOT_EXPENSE, Option.none, Option.none,
      some (pys ("INTERNAL_TRANSFER")), .MEDIUM⟩)
  else
    .ok Option.none

/-- Expense rule CreditCardPaymentRule.evaluate from `rules.py`. -/
def CreditCardPaymentRule (t : Txn) : PyRes (Option ExpenseClassification) :=
  if contains_any_keyword t.descNorm CREDIT_CARD_PAYMENT_KEYWORDS then
    .ok (some ⟨.NOT_DEDUCTIBLE, some .NONE, some (pys ("CREDIT_CARD_PAYMENT")),
      some (pys ("PAYING_DEBT_NOT_DEDUCTION")), .MEDIUM⟩)
  else
    .ok Option.none

/-- Expense rule ShelterRule.evaluate from `rules.py`.  When the
`personal_finance_category` key is present with value `None`, the Python
`plaid_category.get("primary", "")` raises. -/
def ShelterRule (t : Txn) : PyRes (Option ExpenseClassification) :=
  match t.personal_finance_category.getD ⟨.absent, .absent⟩ with
  | Option.none => .exn .attributeError
  | some pc =>
    let primary := pyStrOf (pc.primary.getD [])
    let detailed := pyStrOf (pc.detailed.getD [])
    let is_rent_category :=
      pyContains primary (pys ("RENT_AND_UTILITIES")) && pyContains detailed (pys ("RENT"))
    if is_rent_category || contains_any_keyword t.descNorm SHELTER_KEYWORDS ||
        contains_any_keyword t.merchNorm SHELTER_KEYWORDS then
      if pyContains t.descNorm (pys ("mortgage")) || pyContains t.descNorm (pys ("mtg")) then
        .ok (some ⟨.COUNTABLE_DEDUCTION, some .SHELTER, some (pys ("MORTGAGE")),
          some (pys ("SHELTER_COST")), .MEDIUM⟩)
      else
        .ok (some ⟨.COUNTABLE_DEDUCTION, some .SHELTER, some (pys ("RENT")),
          some (pys ("SHELTER_COST")), .MEDIUM⟩)
    else
      .ok Option.none

/-- Expense rule UtilitiesRule.evaluate from `rules.py`. -/
def UtilitiesRule (t : Txn) : PyRes (Option ExpenseClassification) :=
  let plaid_category := t.personal_finance_category.getD ⟨.absent, .absent⟩
  if is_utility_category plaid_category || matches_utility_keyword t.descNorm t.merchNorm then
    if contains_any_keyword t.descNorm INTERNET_KEYWORDS then
      .ok (some ⟨.COUNTABLE_DEDUCTION, some .UTILITIES, some (pys ("INTERNET_OR_PHONE")),
        some (pys ("UTILITY_EXPENSE_SUA_EVIDENCE")), .MEDIUM⟩)
    else if contains_any_keyword t.descNorm ELECTRIC_KEYWORDS then
      .ok (some ⟨.COUNTABLE_DEDUCTION, some .UTILITIES, some (pys ("ELECTRIC")),
        some (pys ("UTILITY_EXPENSE_SUA_EVIDENCE")), .MEDIUM⟩)
    else if contains_any_keyword t.descNorm GAS_KEYWORDS then
      .ok (some ⟨.COUNTABLE_DEDUCTION, some .UTILITIES, some (pys ("GAS")),
        some (pys ("UTILITY_EXPENSE_SUA_EVIDENCE")), .MEDIUM⟩)
    else
      .ok (some ⟨.COUNTABLE_DEDUCTION, some .UTILITIES, some (pys ("UTILITIES_OTHER")),
        some (pys ("UTILITY_EXPENSE_SUA_EVIDENCE")), .LOW⟩)
  else
    .ok Option.none

/-- Expense rule ChildcareRule.evaluate from `rules.py`. -/
def ChildcareRule (t : Txn) : PyRes (Option ExpenseClassification) :=
  if contains_any_keyword t.descNorm CHILDCARE_KEYWORDS then
    .ok (some ⟨.COUNTABLE_DEDUCTION, some .CHILDCARE, some (pys ("DEPENDENT_CARE")),
      some (pys ("DEPENDENT_CARE_IF_WORK_OR_TRAINING")), .MEDIUM⟩)
  else
    .ok Option.none

/-- Expense rule MedicalRule.evaluate from `rules.py`. -/
def MedicalRule (t : Txn) : PyRes (Option ExpenseClassification) :=
  if contains_any_keyword t.descNorm MEDICAL_KEYWORDS then
    .ok (some ⟨.FLAG_FOR_REVIEW, some .MEDICAL, some (pys ("MEDICAL_EXPENSE")),
      some (pys ("MEDICAL_DEDUCTION_ONLY_IF_ELDERLY_OR_DISABLED")), .LOW⟩)
  else
    .ok Option.none

/-- Expense rule ChildSupportRule.evaluate from `rules.py`. -/
def ChildSupportRule (t : Txn) : PyRes (Option ExpenseClassification) :=
  if contains_any_keyword t.descNorm CHILD_SUPPORT_KEYWORDS then
    .ok (some ⟨.COUNTABLE_DEDUCTION, some .CHILD_SUPPORT_PAID, some (pys ("CHILD_SUPPORT")),
      some (pys ("CHILD_SUPPORT_PAYMENT")), .MEDIUM⟩)
  else
    .ok Option.none

/-- Expense rule DefaultExpenseRule.evaluate from `rules.py`. -/
def DefaultExpenseRule (_t : Txn) : ExpenseClassification :=
  ⟨.NOT_DEDUCTIBLE, Option.none, Option.none, some (pys ("NOT_A_COUNTABLE_DEDUCTION")), .MEDIUM⟩

/-- The rule loop of classify_expense from `classifiers.py`. -/
def runExpenseRules : List (Txn → PyRes (Option ExpenseClassification)) → Txn → PyRes ExpenseClassification
  | [], t => .ok (DefaultExpenseRule t)
  | r :: rs, t =>
    match r t with
    | .exn e => .exn e
    | .ok (some c) => .ok c
    | .ok Option.none => runExpenseRules rs t

/-- EXPENSE_RULES from `classifiers.py`, in evaluation order. -/
def EXPENSE_RULES : List (Txn → PyRes (Option ExpenseClassification)) :=
  [MissingAmountRule, NotExpenseRule, TransferKeywordsRule, CreditCardPaymentRule,
   ShelterRule, UtilitiesRule, ChildcareRule, MedicalRule, ChildSupportRule]

/-- classify_expense from `classifiers.py`. -/
def classify_expense (t : Txn) : PyRes ExpenseClassification := runExpenseRules EXPENSE_RULES t

/-- Final state of an expense run, when it returned a classification. -/
def expFinal : PyRes ExpenseClassification → Option ExpenseState
  | .ok c => some c.final_state
  | .exn _ => Option.none

/-- Deduction type of an expense run, when it returned a classification. -/
def expDed : PyRes ExpenseClassification → Option (Option DeductionType)
  | .ok c => some c.deduction_type
  | .exn _ => Option.none

/-- Category of an expense run, when it returned a classification. -/
def expCat : PyRes ExpenseClassification → Option (Option PyStr)
  | .ok c => some c.category
  | .exn _ => Option.none

/-- Final state of an income run, when it returned a classification. -/
def incFinal : PyRes SnapClassification → Option IncomeState
  | .ok c => some c.final_state
  | .exn _ => Option.none

/-- Whether a run returned normally (no exception). -/
def PyRes.isOk {α : Type} : PyRes α → Bool
  | .ok _ => true
  | .exn _ => false

/-- Replace the description field of a transaction. -/
def setDesc (t : Txn) (d : Fld PyStr) : Txn :=
  ⟨d, t.amount, t.direction, t.type, t.merchant_name, t.personal_finance_category⟩

/-- Every classification an income rule (or the income default) can emit. -/
def incomeOutputs : List SnapClassification :=
  [⟨.NOT_INCOME, Option.none, Option.none, some (pys ("OUTFLOW_OR_NONPOSITIVE")), .HIGH⟩,
   ⟨.NOT_INCOME, Option.none, Option.none, some (pys ("OUTFLOW_TRANSACTION")), .HIGH⟩,
   ⟨.NOT_INCOME, Option.none, Option.none, some (pys ("REIMBURSEMENT_REFUND_LOAN_OR_SIMILAR")), .MEDIUM⟩,
   ⟨.NOT_INCOME, Option.none, Option.none, some (pys ("INTERNAL_TRANSFER_OR_NONINCOME_TRANSFER")), .MEDIUM⟩,
   ⟨.COUNTABLE_INCOME, some .EARNED_INCOME, some (pys ("WAGES_OR_PAYROLL")), some (pys ("EARNED_INCOME_SOURCE")), .MEDIUM⟩,
   ⟨.COUNTABLE_INCOME, some .UNEARNED_INCOME, some (pys ("BENEFITS_OR_SUPPORT")), some (pys ("UNEARNED_INCOME_SOURCE")), .MEDIUM⟩,
   ⟨.COUNTABLE_INCOME, some .UNEARNED_INCOME, some (pys ("BANK_INTEREST")), some (pys ("BANK_INTEREST_IS_UNEARNED_INCOME")), .HIGH⟩,
   ⟨.FLAG_FOR_REVIEW, Option.none, Option.none, some (pys ("POSSIBLE_GIFT_OR_IRREGULAR_INCOME")), .LOW⟩,
   ⟨.FLAG_FOR_REVIEW, Option.none, Option.none, some (pys ("UNKNOWN_SOURCE")), .LOW⟩]

/-- Every classification an expense rule (or the expense default) can emit. -/
def expenseOutputs : List ExpenseClassification :=
  [⟨.FLAG_FOR_REVIEW, Option.none, Option.none, some (pys ("MISSING_AMOUNT")), .LOW⟩,
   ⟨.NOT_EXPENSE, Option.none, Option.none, some (pys ("NOT_AN_EXPENSE_TRANSACTION")), .HIGH⟩,
   ⟨.NOT_EXPENSE, Option.none, Option.none, some (pys ("INTERNAL_TRANSFER")), .MEDIUM⟩,
   ⟨.NOT_DEDUCTIBLE, some .NONE, some (pys ("CREDIT_CARD_PAYMENT")), some (pys ("PAYING_DEBT_NOT_DEDUCTION")), .MEDIUM⟩,
   ⟨.COUNTABLE_DEDUCTION, some .SHELTER, some (pys ("MORTGAGE")), some (pys ("SHELTER_COST")), .MEDIUM⟩,
   ⟨.COUNTABLE_DEDUCTION, some .SHELTER, some (pys ("RENT")), some (pys ("SHELTER_COST")), .MEDIUM⟩,
   ⟨.COUNTABLE_DEDUCTION, some .UTILITIES, some (pys ("INTERNET_OR_PHONE")), some (pys ("UTILITY_EXPENSE_SUA_EVIDENCE")), .MEDIUM⟩,
   ⟨.COUNTABLE_DEDUCTION, some .UTILITIES, some (pys ("ELECTRIC")), some (pys ("UTILITY_EXPENSE_SUA_EVIDENCE")), .MEDIUM⟩,
   ⟨.COUNTABLE_DEDUCTION, some .UTILITIES, some (pys ("GAS")), some (pys ("UTILITY_EXPENSE_SUA_EVIDENCE")), .MEDIUM⟩,
   ⟨.COUNTABLE_DEDUCTION, some .UTILITIES, some (pys ("UTILITIES_OTHER")), some (pys ("UTILITY_EXPENSE_SUA_EVIDENCE")), .LOW⟩,
   ⟨.COUNTABLE_DEDUCTION, some .CHILDCARE, some (pys ("DEPENDENT_CARE")), some (pys ("DEPENDENT_CARE_IF_WORK_OR_TRAINING")), .MEDIUM⟩,
   ⟨.FLAG_FOR_REVIEW, some .MEDICAL, some (pys ("MEDICAL_EXPENSE")), some (pys ("MEDICAL_DEDUCTION_ONLY_IF_ELDERLY_OR_DISABLED")), .LOW⟩,
   ⟨.COUNTABLE_DEDUCTION, some .CHILD_SUPPORT_PAID, some (pys ("CHILD_SUPPORT")), some (pys ("CHILD_SUPPORT_PAYMENT")), .MEDIUM⟩,
   ⟨.NOT_DEDUCTIBLE, Option.none, Option.none, some (pys ("NOT_A_COUNTABLE_DEDUCTION")), .MEDIUM⟩]

/-- An inflow carrying both the type hint "expense" and a shelter keyword. -/
def inflowRentTxn : Txn :=
  ⟨.val (pys ("rent")), .val 100, .val (pys ("INFLOW")), .val (pys ("expense")), .absent, .absent⟩

/-- A positive inflow whose optional `type` key is present with value `None`. -/
def nullTypeTxn : Txn :=
  ⟨.val [], .val 5, .val (pys ("INFLOW")), .nul, .absent, .absent⟩

/-- The spec's XCEL ENERGY scenario transaction. -/
def xcelTxn : Txn :=
  ⟨.val (pys ("XCEL ENERGY")), .val (-85), .val (pys ("OUTFLOW")), .val (pys ("expense")), .absent, .absent⟩

/-- A transaction dictionary with no keys at all (in particular no amount). -/
def emptyTxn : Txn := ⟨.absent, .absent, .absent, .absent, .absent, .absent⟩

/-- An outflow whose `amount` key is present with value `None`. -/
def nullAmountTxn : Txn :=
  ⟨.val (pys ("rent")), .nul, .val (pys ("OUTFLOW")), .absent, .absent, .absent⟩

/-- The claim C5 example: outflow with primary RENT_AND_UTILITIES and detailed
RENT_AND_UTILITIES_GAS_AND_ELECTRICITY, no matching description or merchant. -/
def gasElecRentTxn : Txn :=
  ⟨.val [], .val (-50), .val (pys ("OUTFLOW")), .val (pys ("expense")), .absent,
   .val ⟨.val (pys ("RENT_AND_UTILITIES")), .val (pys ("RENT_AND_UTILITIES_GAS_AND_ELECTRICITY"))⟩⟩

/-- An outflow whose detailed category contains GAS_AND_ELECTRICITY but whose
category does not satisfy the shelter rule's rent test. -/
def gasElecOnlyTxn : Txn :=
  ⟨.val [], .val (-50), .val (pys ("OUTFLOW")), .val (pys ("expense")), .absent,
   .val ⟨.absent, .val (pys ("GAS_AND_ELECTRICITY"))⟩⟩

/-- A plain outflow with an unremarkable description. -/
def plainOutflowTxn : Txn :=
  ⟨.val (pys ("coffee shop")), .val (-4), .val (pys ("OUTFLOW")), .absent, .absent, .absent⟩

/-- A plain positive inflow with no type hint. -/
def inflowPlainTxn : Txn :=
  ⟨.val (pys ("coffee")), .val 100, .val (pys ("INFLOW")), .absent, .absent, .absent⟩

/-- An outflow whose description contains both "transfer" and "rent". -/
def transferRentTxn : Txn :=
  ⟨.val (pys ("transfer rent")), .val (-10), .val (pys ("OUTFLOW")), .absent, .absent, .absent⟩

lemma runInc_exn {r : Txn → PyRes (Option SnapClassification)} {rs t e} (h : r t = .exn e) :
    runIncomeRules (r :: rs) t = .exn e := by
  simp [runIncomeRules, h]

lemma runInc_some {r : Txn → PyRes (Option SnapClassification)} {rs t c} (h : r t = .ok (some c)) :
    runIncomeRules (r :: rs) t = .ok c := by
  simp [runIncomeRules, h]

lemma runInc_none {r : Txn → PyRes (Option SnapClassification)} {rs t} (h : r t = .ok Option.none) :
    runIncomeRules (r :: rs) t = runIncomeRules rs t := by
  simp [runIncomeRules, h]

lemma runExp_exn {r : Txn → PyRes (Option ExpenseClassification)} {rs t e} (h : r t = .exn e) :
    runExpenseRules (r :: rs) t = .exn e := by
  simp [runExpenseRules, h]

lemma runExp_some {r : Txn → PyRes (Option ExpenseClassification)} {rs t c} (h : r t = .ok (some c)) :
    runExpenseRules (r :: rs) t = .ok c := by
  simp [runExpenseRules, h]

lemma runExp_none {r : Txn → PyRes (Option ExpenseClassification)} {rs t} (h : r t = .ok Option.none) :
    runExpenseRules (r :: rs) t = runExpenseRules rs t := by
  simp [runExpenseRules, h]

lemma stripUpper_val (s : PyStr) :
    stripUpper ((Fld.val s).getD []) = .ok (pyUpper (pyStrip s)) := rfl

lemma stripUpper_absent :
    stripUpper ((Fld.absent : Fld PyStr).getD []) = .ok [] := rfl

lemma stripUpper_nul :
    stripUpper ((Fld.nul : Fld PyStr).getD []) = .exn .attributeError := rfl

lemma missingAmount_nul {t : Txn} (h : t.amount = .nul) :
    MissingAmountRule t =
      .ok (some ⟨.FLAG_FOR_REVIEW, Option.none, Option.none, some (pys ("MISSING_AMOUNT")), .LOW⟩) := by
  simp [MissingAmountRule, h, Fld.getD]

lemma missingAmount_not_nul {t : Txn} (h : t.amount ≠ .nul) :
    MissingAmountRule t = .ok Option.none := by
  cases ht : t.amount with
  | absent => simp [MissingAmountRule, ht, Fld.getD]
  | nul => exact absurd ht h
  | val q => simp [MissingAmountRule, ht, Fld.getD]

lemma typeNorm_val {t : Txn} {u : PyStr} (h : t.type = .val u) :
    t.typeNorm = pyLower (pyStrip u) := by
  simp [Txn.typeNorm, h, Fld.getN, orEmpty]

lemma typeNorm_absent {t : Txn} (h : t.type = .absent) : t.typeNorm = [] := by
  simp [Txn.typeNorm, h, Fld.getN, orEmpty, pyStrip, pyLower]

lemma typeNorm_nul {t : Txn} (h : t.type = .nul) : t.typeNorm = [] := by
  simp [Txn.typeNorm, h, Fld.getN, orEmpty, pyStrip, pyLower]

lemma rule1_exn {t : Txn} {e : PyErr} (h : stripUpper (t.direction.getD []) = .exn e) :
    NotInflowOrNegativeAmountRule t = .exn e := by
  simp only [NotInflowOrNegativeAmountRule, h]

lemma rule1_not_inflow {t : Txn} {d : PyStr}
    (hd : stripUpper (t.direction.getD []) = .ok d) (hne : d ≠ pys ("INFLOW")) :
    NotInflowOrNegativeAmountRule t =
      .ok (some ⟨.NOT_INCOME, Option.none, Option.none, some (pys ("OUTFLOW_TRANSACTION")), .HIGH⟩) := by
  simp only [NotInflowOrNegativeAmountRule, hd]
  rw [if_neg hne]

lemma rule1_inflow_nonpos {t : Txn}
    (hd : stripUpper (t.direction.getD []) = .ok (pys ("INFLOW")))
    (ha : pyLe (t.amount.getD 0) 0 = .ok true) :
    NotInflowOrNegativeAmountRule t =
      .ok (some ⟨.NOT_INCOME, Option.none, Option.none, some (pys ("OUTFLOW_OR_NONPOSITIVE")), .HIGH⟩) := by
  simp only [NotInflowOrNegativeAmountRule, hd]
  simp [ha]

lemma notExpense_fires {t : Txn} {d : PyStr}
    (hd : stripUpper (t.direction.getD []) = .ok d)
    (hdo : d ≠ pys ("OUTFLOW"))
    (ht : t.typeNorm ≠ pys ("expense"))
    (ha : pyLt (t.amount.getD 0) 0 = .ok false) :
    NotExpenseRule t =
      .ok (some ⟨.NOT_EXPENSE, Option.none, Option.none,
        some (pys ("NOT_AN_EXPENSE_TRANSACTION")), .HIGH⟩) := by
  simp only [NotExpenseRule, hd]
  rw [if_neg ht, if_neg hdo, ha]
  simp

lemma notExpense_skip_dir {t : Txn}
    (hd : stripUpper (t.direction.getD []) = .ok (pys ("OUTFLOW"))) :
    NotExpenseRule t = .ok Option.none := by
  simp only [NotExpenseRule, hd]
  by_cases ht : t.typeNorm = pys ("expense")
  · rw [if_pos ht]
    simp
  · rw [if_neg ht]
    simp

/-- C4 (amended): a transaction whose amount key is present with a null value
is flagged for review with reason MISSING_AMOUNT and LOW confidence. -/
theorem C4_null_amount_flag_for_review (t : Txn) (h : t.amount = .nul) :
    classify_expense t =
      .ok ⟨.FLAG_FOR_REVIEW, Option.none, Option.none, some (pys ("MISSING_AMOUNT")), .LOW⟩ := by
  unfold classify_expense EXPENSE_RULES
  exact runExp_some (missingAmount_nul h)

/-- Witness for C4: the null-amount outflow is flagged MISSING_AMOUNT. -/
theorem C4_witness :
    classify_expense nullAmountTxn =
      .ok ⟨.FLAG_FOR_REVIEW, Option.none, Option.none, some (pys ("MISSING_AMOUNT")), .LOW⟩ :=
  C4_null_amount_flag_for_review nullAmountTxn rfl

/-- Counterexample for C4 as stated: on a transaction whose amount key is
absent (not null), classify_expense does not return FLAG_FOR_REVIEW at all;
the absent amount defaults to 0 and the not-an-expense guard fires. -/
theorem C4_counterexample :
    expFinal (classify_expense emptyTxn) = some .NOT_EXPENSE ∧
    expFinal (classify_expense emptyTxn) ≠ some .FLAG_FOR_REVIEW := by
  constructor
  · decide
  · decide

/-- C6: for every transaction with direction OUTFLOW, or with an amount no
greater than zero, classify_income never returns COUNTABLE_INCOME: the
polarity guard fires first (or the run raises before classifying). -/
theorem C6_outflow_or_nonpositive_never_countable_income (t : Txn)
    (h : t.direction = .val (pys ("OUTFLOW")) ∨ ∃ q, t.amount = .val q ∧ q ≤ 0) :
    ∀ c, classify_income t = .ok c → c.final_state ≠ .COUNTABLE_INCOME := by
  intro c hc hstate
  unfold classify_income INCOME_RULES at hc
  cases hD : stripUpper (t.direction.getD []) with
  | exn e =>
      rw [runInc_exn (rule1_exn hD)] at hc
      exact PyRes.noConfusion hc
  | ok d =>
      by_cases hd : d = pys ("INFLOW")
      · subst hd
        rcases h with hdir | ⟨q, ha, hq⟩
        · rw [hdir, stripUpper_val] at hD
          exact absurd hD (by decide)
        · have hle : pyLe (t.amount.getD 0) 0 = .ok true := by
            rw [ha]
            show PyRes.ok (decide (q ≤ 0)) = .ok true
            rw [decide_eq_true hq]
          rw [runInc_some (rule1_inflow_nonpos hD hle)] at hc
          cases hc
          exact absurd hstate (by decide)
      · rw [runInc_some (rule1_not_inflow hD hd)] at hc
        cases hc
        exact absurd hstate (by decide)

/-- Witness for C6: an outflow transaction is not classified as countable income. -/
theorem C6_witness :
    incFinal (classify_income plainOutflowTxn) ≠ some .COUNTABLE_INCOME := by
  have h := C6_outflow_or_nonpositive_never_countable_income plainOutflowTxn (Or.inl rfl)
  cases hc : classify_income plainOutflowTxn with
  | ok c => simpa [incFinal] using h c hc
  | exn e => simp [incFinal]

/-- C1 (amended): for an inflow whose type hint does not normalize to
"expense" and whose amount is not negative, classify_expense never returns
COUNTABLE_DEDUCTION: the not-an-expense guard (or the missing-amount guard)
fires before any deduction rule. -/
theorem C1_inflow_not_countable_deduction (t : Txn)
    (hdir : t.direction = .val (pys ("INFLOW")))
    (htype : ∀ u, t.type = .val u → pyLower (pyStrip u) ≠ pys ("expense"))
    (hamt : ∀ q, t.amount = .val q → 0 ≤ q) :
    ∀ c, classify_expense t = .ok c → c.final_state ≠ .COUNTABLE_DEDUCTION := by
  intro c hc hstate
  unfold classify_expense EXPENSE_RULES at hc
  have hD : stripUpper (t.direction.getD []) = .ok (pys ("INFLOW")) := by
    rw [hdir]
    decide
  have htn : t.typeNorm ≠ pys ("expense") := by
    cases ht : t.type with
    | absent => rw [typeNorm_absent ht]; decide
    | nul => rw [typeNorm_nul ht]; decide
    | val u => rw [typeNorm_val ht]; exact htype u ht
  cases ha : t.amount with
  | nul =>
      rw [runExp_some (missingAmount_nul ha)] at hc
      cases hc
      exact absurd hstate (by decide)
  | absent =>
      rw [runExp_none (missingAmount_not_nul (by simp [ha]))] at hc
      have hlt : pyLt (t.amount.getD 0) 0 = .ok false := by
        rw [ha]
        decide
      rw [runExp_some (notExpense_fires hD (by decide) htn hlt)] at hc
      cases hc
      exact absurd hstate (by decide)
  | val q =>
      rw [runExp_none (missingAmount_not_nul (by simp [ha]))] at hc
      have hlt : pyLt (t.amount.getD 0) 0 = .ok false := by
        rw [ha]
        show PyRes.ok (decide (q < 0)) = .ok false
        rw [decide_eq_false (not_lt.mpr (hamt q ha))]
      rw [runExp_some (notExpense_fires hD (by decide) htn hlt)] at hc
      cases hc
      exact absurd hstate (by decide)

/-- Witness for C1: a plain positive inflow is not a countable deduction. -/
theorem C1_witness :
    expFinal (classify_expense inflowPlainTxn) ≠ some .COUNTABLE_DEDUCTION := by
  have h := C1_inflow_not_countable_deduction inflowPlainTxn rfl
    (fun u hu => by cases hu) (fun q hq => by cases hq; decide)
  cases hc : classify_expense inflowPlainTxn with
  | ok c => simpa [expFinal] using h c hc
  | exn e => simp [expFinal]

/-- Counterexample for C1 as stated: an INFLOW transaction that carries the
type hint "expense" and a shelter keyword is classified COUNTABLE_DEDUCTION,
because the not-an-expense guard accepts any one outflow signal. -/
theorem C1_counterexample :
    expFinal (classify_expense inflowRentTxn) = some .COUNTABLE_DEDUCTION := by
  decide

lemma contains_any_of_mem {text k : PyStr} {ks : List PyStr}
    (hk : k ∈ ks) (h : pyContains text k = true) :
    contains_any_keyword text ks = true := by
  simp only [contains_any_keyword, List.any_eq_true]
  exact ⟨k, hk, h⟩

/-- C7: the expense chain returns the first non-declining verdict.  Part one:
whenever the missing-amount and not-an-expense guards decline and the
transfer rule matches, its verdict is the overall result regardless of the
later rules.  Part two: an outflow whose description contains both
"transfer" and "rent" gets the earlier transfer rule's NOT_EXPENSE /
INTERNAL_TRANSFER verdict, not the later shelter rule's. -/
theorem C7_first_match_wins :
    (∀ t c, MissingAmountRule t = .ok Option.none → NotExpenseRule t = .ok Option.none →
      TransferKeywordsRule t = .ok (some c) → classify_expense t = .ok c) ∧
    (∀ t q, t.amount = .val q → t.direction = .val (pys ("OUTFLOW")) →
      pyContains t.descNorm (pys ("transfer")) = true →
      pyContains t.descNorm (pys ("rent")) = true →
      classify_expense t =
        .ok ⟨.NOT_EXPENSE, Option.none, Option.none, some (pys ("INTERNAL_TRANSFER")), .MEDIUM⟩) := by
  constructor
  · intro t c h1 h2 h3
    unfold classify_expense EXPENSE_RULES
    rw [runExp_none h1, runExp_none h2, runExp_some h3]
  · intro t q ha hd htr _hrent
    have h1 : MissingAmountRule t = .ok Option.none := missingAmount_not_nul (by simp [ha])
    have h2 : NotExpenseRule t = .ok Option.none := notExpense_skip_dir (by rw [hd]; decide)
    have hkw : contains_any_keyword t.descNorm TRANSFER_KEYWORDS = true :=
      contains_any_of_mem (by decide) htr
    have h3 : TransferKeywordsRule t =
        .ok (some ⟨.NOT_EXPENSE, Option.none, Option.none,
          some (pys ("INTERNAL_TRANSFER")), .MEDIUM⟩) := by
      simp [TransferKeywordsRule, hkw]
    unfold classify_expense EXPENSE_RULES
    rw [runExp_none h1, runExp_none h2, runExp_some h3]

/-- Witness for C7: the transfer-and-rent outflow gets the transfer verdict. -/
theorem C7_witness :
    classify_expense transferRentTxn =
      .ok ⟨.NOT_EXPENSE, Option.none, Option.none, some (pys ("INTERNAL_TRANSFER")), .MEDIUM⟩ :=
  C7_first_match_wins.2 transferRentTxn (-10) rfl rfl (by decide) (by decide)

lemma isOk_exists {α : Type} {x : PyRes α} (h : x.isOk = true) : ∃ o, x = .ok o := by
  cases x with
  | ok a => exact ⟨a, rfl⟩
  | exn e => simp [PyRes.isOk] at h

lemma stripUpper_dir_ok {t : Txn} (hd : t.direction ≠ .nul) :
    ∃ d, stripUpper (t.direction.getD []) = .ok d := by
  cases hdir : t.direction with
  | absent => exact ⟨_, rfl⟩
  | nul => exact absurd hdir hd
  | val s => exact ⟨_, rfl⟩

lemma stripLower_type_ok {t : Txn} (ht : t.type ≠ .nul) :
    ∃ s, stripLower (t.type.getD []) = .ok s := by
  cases htyp : t.type with
  | absent => exact ⟨_, rfl⟩
  | nul => exact absurd htyp ht
  | val s => exact ⟨_, rfl⟩

lemma pyLe_amount_ok {t : Txn} (ha : t.amount ≠ .nul) :
    ∃ b, pyLe (t.amount.getD 0) 0 = .ok b := by
  cases hamt : t.amount with
  | absent => exact ⟨_, rfl⟩
  | nul => exact absurd hamt ha
  | val q => exact ⟨_, rfl⟩

lemma pyLt_amount_ok {t : Txn} (ha : t.amount ≠ .nul) :
    ∃ b, pyLt (t.amount.getD 0) 0 = .ok b := by
  cases hamt : t.amount with
  | absent => exact ⟨_, rfl⟩
  | nul => exact absurd hamt ha
  | val q => exact ⟨_, rfl⟩

lemma rule1_ok {t : Txn} (hd : t.direction ≠ .nul) (ha : t.amount ≠ .nul) :
    ∃ o, NotInflowOrNegativeAmountRule t = .ok o := by
  apply isOk_exists
  obtain ⟨d, hDeq⟩ := stripUpper_dir_ok hd
  obtain ⟨b, hAeq⟩ := pyLe_amount_ok ha
  simp only [NotInflowOrNegativeAmountRule, hDeq, hAeq]
  split
  · split
    · rfl
    · rfl
  · rfl

lemma notIncomeKw_ok (t : Txn) : ∃ o, NotIncomeKeywordsRule t = .ok o := by
  apply isOk_exists
  unfold NotIncomeKeywordsRule
  split <;> rfl

lemma excludeKw_ok (t : Txn) : ∃ o, ExcludeKeywordsRule t = .ok o := by
  apply isOk_exists
  unfold ExcludeKeywordsRule
  split <;> rfl

lemma earned_ok {t : Txn} (ht : t.type ≠ .nul) : ∃ o, EarnedIncomeRule t = .ok o := by
  apply isOk_exists
  obtain ⟨s, hTeq⟩ := stripLower_type_ok ht
  simp only [EarnedIncomeRule, hTeq]
  split <;> rfl

lemma unearned_ok (t : Txn) : ∃ o, UnearnedIncomeRule t = .ok o := by
  apply isOk_exists
  unfold UnearnedIncomeRule
  split <;> rfl

lemma bankInterest_ok {t : Txn} (ht : t.type ≠ .nul) : ∃ o, BankInterestRule t = .ok o := by
  apply isOk_exists
  obtain ⟨s, hTeq⟩ := stripLower_type_ok ht
  simp only [BankInterestRule, hTeq]
  split <;> rfl

lemma gift_ok (t : Txn) : ∃ o, GiftOrIrregularRule t = .ok o := by
  apply isOk_exists
  unfold GiftOrIrregularRule
  split <;> rfl

lemma missingAmount_ok (t : Txn) : ∃ o, MissingAmountRule t = .ok o := by
  apply isOk_exists
  unfold MissingAmountRule
  split <;> rfl

lemma notExpense_ok {t : Txn} (hd : t.direction ≠ .nul) (ha : t.amount ≠ .nul) :
    ∃ o, NotExpenseRule t = .ok o := by
  apply isOk_exists
  obtain ⟨d, hDeq⟩ := stripUpper_dir_ok hd
  obtain ⟨b, hAeq⟩ := pyLt_amount_ok ha
  simp only [NotExpenseRule, hDeq, hAeq]
  by_cases h1 : t.typeNorm = pys ("expense")
  · simp [h1, PyRes.isOk]
  · by_cases h2 : d = pys ("OUTFLOW")
    · simp [h1, h2, PyRes.isOk]
    · cases b <;> simp [h1, h2, PyRes.isOk]

lemma transferKw_ok (t : Txn) : ∃ o, TransferKeywordsRule t = .ok o := by
  apply isOk_exists
  unfold TransferKeywordsRule
  split <;> rfl

lemma creditCard_ok (t : Txn) : ∃ o, CreditCardPaymentRule t = .ok o := by
  apply isOk_exists
  unfold CreditCardPaymentRule
  split <;> rfl

lemma shelter_ok {t : Txn} (hpc : t.personal_finance_category ≠ .nul) :
    ∃ o, ShelterRule t = .ok o := by
  apply isOk_exists
  cases hc : t.personal_finance_category with
  | nul => exact absurd hc hpc
  | absent =>
      simp only [ShelterRule, hc, Fld.getD]
      split
      · split
        · rfl
        · rfl
      · rfl
  | val pc =>
      simp only [ShelterRule, hc, Fld.getD]
      split
      · split
        · rfl
        · rfl
      · rfl

lemma utilities_ok (t : Txn) : ∃ o, UtilitiesRule t = .ok o := by
  apply isOk_exists
  simp only [UtilitiesRule]
  split
  · split
    · rfl
    · split
      · rfl
      · split
        · rfl
        · rfl
  · rfl

lemma childcare_ok (t : Txn) : ∃ o, ChildcareRule t = .ok o := by
  apply isOk_exists
  unfold ChildcareRule
  split <;> rfl

lemma medical_ok (t : Txn) : ∃ o, MedicalRule t = .ok o := by
  apply isOk_exists
  unfold MedicalRule
  split <;> rfl

lemma childSupport_ok (t : Txn) : ∃ o, ChildSupportRule t = .ok o := by
  apply isOk_exists
  unfold ChildSupportRule
  split <;> rfl

/-- C2 (amended): both classifiers return a classification, with no
exception, for every transaction none of whose amount, direction, type or
personal_finance_category keys is present with a null value (absent keys,
and null description or merchant_name, are always safe). -/
theorem C2_total_when_not_null (t : Txn)
    (ha : t.amount ≠ .nul) (hd : t.direction ≠ .nul)
    (ht : t.type ≠ .nul) (hpc : t.personal_finance_category ≠ .nul) :
    (classify_income t).isOk = true ∧ (classify_expense t).isOk = true := by
  constructor
  · unfold classify_income INCOME_RULES
    obtain ⟨o1, h1⟩ := rule1_ok hd ha
    cases o1 with
    | some c => rw [runInc_some h1]; rfl
    | none =>
    rw [runInc_none h1]
    obtain ⟨o2, h2⟩ := notIncomeKw_ok t
    cases o2 with
    | some c => rw [runInc_some h2]; rfl
    | none =>
    rw [runInc_none h2]
    obtain ⟨o3, h3⟩ := excludeKw_ok t
    cases o3 with
    | some c => rw [runInc_some h3]; rfl
    | none =>
    rw [runInc_none h3]
    obtain ⟨o4, h4⟩ := earned_ok ht
    cases o4 with
    | some c => rw [runInc_some h4]; rfl
    | none =>
    rw [runInc_none h4]
    obtain ⟨o5, h5⟩ := unearned_ok t
    cases o5 with
    | some c => rw [runInc_some h5]; rfl
    | none =>
    rw [runInc_none h5]
    obtain ⟨o6, h6⟩ := bankInterest_ok ht
    cases o6 with
    | some c => rw [runInc_some h6]; rfl
    | none =>
    rw [runInc_none h6]
    obtain ⟨o7, h7⟩ := gift_ok t
    cases o7 with
    | some c => rw [runInc_some h7]; rfl
    | none =>
    rw [runInc_none h7]
    rfl
  · unfold classify_expense EXPENSE_RULES
    obtain ⟨o1, h1⟩ := missingAmount_ok t
    cases o1 with
    | some c => rw [runExp_some h1]; rfl
    | none =>
    rw [runExp_none h1]
    obtain ⟨o2, h2⟩ := notExpense_ok hd ha
    cases o2 with
    | some c => rw [runExp_some h2]; rfl
    | none =>
    rw [runExp_none h2]
    obtain ⟨o3, h3⟩ := transferKw_ok t
    cases o3 with
    | some c => rw [runExp_some h3]; rfl
    | none =>
    rw [runExp_none h3]
    obtain ⟨o4, h4⟩ := creditCard_ok t
    cases o4 with
    | some c => rw [runExp_some h4]; rfl
    | none =>
    rw [runExp_none h4]
    obtain ⟨o5, h5⟩ := shelter_ok hpc
    cases o5 with
    | some c => rw [runExp_some h5]; rfl
    | none =>
    rw [runExp_none h5]
    obtain ⟨o6, h6⟩ := utilities_ok t
    cases o6 with
    | some c => rw [runExp_some h6]; rfl
    | none =>
    rw [runExp_none h6]
    obtain ⟨o7, h7⟩ := childcare_ok t
    cases o7 with
    | some c => rw [runExp_some h7]; rfl
    | none =>
    rw [runExp_none h7]
    obtain ⟨o8, h8⟩ := medical_ok t
    cases o8 with
    | some c => rw [runExp_some h8]; rfl
    | none =>
    rw [runExp_none h8]
    obtain ⟨o9, h9⟩ := childSupport_ok t
    cases o9 with
    | some c => rw [runExp_some h9]; rfl
    | none =>
    rw [runExp_none h9]
    rfl

/-- Witness for C2: a well-formed outflow classifies without exception in
both chains. -/
theorem C2_witness :
    (classify_income plainOutflowTxn).isOk = true ∧
    (classify_expense plainOutflowTxn).isOk = true :=
  C2_total_when_not_null plainOutflowTxn (by decide) (by decide) (by decide) (by decide)

/-- Counterexample for C2 as stated: a well-shaped positive inflow whose
optional type key is present with value null makes classify_income raise an
AttributeError inside the earned-income rule instead of degrading to
"no match". -/
theorem C2_counterexample :
    classify_income nullTypeTxn = .exn .attributeError := by
  decide

lemma getD_val {α : Type} (a d : α) : (Fld.val a).getD d = some a := rfl

lemma transferKw_none {t : Txn}
    (h : contains_any_keyword t.descNorm TRANSFER_KEYWORDS = false) :
    TransferKeywordsRule t = .ok Option.none := by
  simp [TransferKeywordsRule, h]

lemma creditCard_none {t : Txn}
    (h : contains_any_keyword t.descNorm CREDIT_CARD_PAYMENT_KEYWORDS = false) :
    CreditCardPaymentRule t = .ok Option.none := by
  simp [CreditCardPaymentRule, h]

lemma shelter_none {t : Txn} {pc : PlaidCat}
    (hpc : t.personal_finance_category = .val pc)
    (hrent : (pyContains (pyStrOf (pc.primary.getD [])) (pys ("RENT_AND_UTILITIES")) &&
        pyContains (pyStrOf (pc.detailed.getD [])) (pys ("RENT"))) = false)
    (hdesc : contains_any_keyword t.descNorm SHELTER_KEYWORDS = false)
    (hmerch : contains_any_keyword t.merchNorm SHELTER_KEYWORDS = false) :
    ShelterRule t = .ok Option.none := by
  simp only [ShelterRule, hpc, getD_val]
  rw [hrent, hdesc, hmerch]
  simp

lemma is_utility_of_detailed {pc : PlaidCat}
    (hdet : pyContains (pyUpper (pyStrOf (pc.detailed.getD []))) (pys ("GAS_AND_ELECTRICITY")) = true) :
    is_utility_category (some pc) = true := by
  have htr : pc.detailed.isAbsent = false := by
    cases hd2 : pc.detailed with
    | absent => rw [hd2] at hdet; exact absurd hdet (by decide)
    | nul => rfl
    | val s => rfl
  simp [is_utility_category, PlaidCat.isTruthy, htr, hdet]

lemma utilities_cd {t : Txn}
    (h : is_utility_category (t.personal_finance_category.getD ⟨.absent, .absent⟩) = true) :
    ∃ c, UtilitiesRule t = .ok (some c) ∧ c.final_state = .COUNTABLE_DEDUCTION ∧
      c.deduction_type = some .UTILITIES := by
  simp only [UtilitiesRule, h, Bool.true_or, if_true]
  split
  · exact ⟨_, rfl, rfl, rfl⟩
  · split
    · exact ⟨_, rfl, rfl, rfl⟩
    · split
      · exact ⟨_, rfl, rfl, rfl⟩
      · exact ⟨_, rfl, rfl, rfl⟩

/-- C5 (amended): an outflow expense whose enrichment category has a
detailed code containing GAS_AND_ELECTRICITY is classified
COUNTABLE_DEDUCTION with deduction_type UTILITIES, provided the description
and merchant name contain no transfer, credit-card-payment or shelter
keyword and the category does not also satisfy the shelter rule's rent test
(primary containing RENT_AND_UTILITIES and detailed containing RENT). -/
theorem C5_gas_electricity_is_utilities (t : Txn) (pc : PlaidCat) (q : ℚ)
    (ha : t.amount = .val q)
    (hd : t.direction = .val (pys ("OUTFLOW")))
    (hpc : t.personal_finance_category = .val pc)
    (hdet : pyContains (pyUpper (pyStrOf (pc.detailed.getD []))) (pys ("GAS_AND_ELECTRICITY")) = true)
    (hnotrent : (pyContains (pyStrOf (pc.primary.getD [])) (pys ("RENT_AND_UTILITIES")) &&
        pyContains (pyStrOf (pc.detailed.getD [])) (pys ("RENT"))) = false)
    (hdesc1 : contains_any_keyword t.descNorm TRANSFER_KEYWORDS = false)
    (hdesc2 : contains_any_keyword t.descNorm CREDIT_CARD_PAYMENT_KEYWORDS = false)
    (hdesc3 : contains_any_keyword t.descNorm SHELTER_KEYWORDS = false)
    (hmerch : contains_any_keyword t.merchNorm SHELTER_KEYWORDS = false) :
    ∃ c, classify_expense t = .ok c ∧ c.final_state = .COUNTABLE_DEDUCTION ∧
      c.deduction_type = some .UTILITIES := by
  unfold classify_expense EXPENSE_RULES
  rw [runExp_none (missingAmount_not_nul (by simp [ha]))]
  rw [runExp_none (notExpense_skip_dir (by rw [hd]; decide))]
  rw [runExp_none (transferKw_none hdesc1)]
  rw [runExp_none (creditCard_none hdesc2)]
  rw [runExp_none (shelter_none hpc hnotrent hdesc3 hmerch)]
  have hu : is_utility_category (t.personal_finance_category.getD ⟨.absent, .absent⟩) = true := by
    rw [hpc]
    exact is_utility_of_detailed hdet
  obtain ⟨c, hc, h1, h2⟩ := utilities_cd hu
  exact ⟨c, by rw [runExp_some hc], h1, h2⟩

/-- Witness for C5: a GAS_AND_ELECTRICITY-only category yields a UTILITIES
deduction. -/
theorem C5_witness :
    expFinal (classify_expense gasElecOnlyTxn) = some .COUNTABLE_DEDUCTION ∧
    expDed (classify_expense gasElecOnlyTxn) = some (some .UTILITIES) := by
  obtain ⟨c, hc, h1, h2⟩ := C5_gas_electricity_is_utilities gasElecOnlyTxn
    ⟨.absent, .val (pys ("GAS_AND_ELECTRICITY"))⟩ (-50) rfl rfl rfl
    (by decide) (by decide) (by decide) (by decide) (by decide) (by decide)
  rw [hc]
  exact ⟨by simp [expFinal, h1], by simp [expDed, h2]⟩

/-- Counterexample for C5 as stated: on the claim's own example (primary
RENT_AND_UTILITIES, detailed RENT_AND_UTILITIES_GAS_AND_ELECTRICITY) the
earlier shelter rule fires, because the detailed code contains "RENT", so
the result is a SHELTER deduction, not UTILITIES. -/
theorem C5_counterexample :
    expDed (classify_expense gasElecRentTxn) = some (some .SHELTER) ∧
    expDed (classify_expense gasElecRentTxn) ≠ some (some .UTILITIES) := by
  constructor
  · decide
  · decide

/-- C3 (amended): on the XCEL ENERGY scenario transaction, classify_expense
returns COUNTABLE_DEDUCTION with deduction_type UTILITIES via the
merchant/keyword fallback (the enrichment category is absent), but the
category is UTILITIES_OTHER with LOW confidence, since none of the ELECTRIC
keywords occurs in "xcel energy". -/
theorem C3_xcel_energy_utilities_other :
    classify_expense xcelTxn =
      .ok ⟨.COUNTABLE_DEDUCTION, some .UTILITIES, some (pys ("UTILITIES_OTHER")),
        some (pys ("UTILITY_EXPENSE_SUA_EVIDENCE")), .LOW⟩ := by
  decide

/-- Counterexample for C3 as stated: the category returned for the
XCEL ENERGY scenario is not ELECTRIC. -/
theorem C3_counterexample :
    expCat (classify_expense xcelTxn) ≠ some (some (pys ("ELECTRIC"))) := by
  decide

lemma rule1_emits {t : Txn} {c : SnapClassification}
    (h : NotInflowOrNegativeAmountRule t = .ok (some c)) : c ∈ incomeOutputs := by
  unfold NotInflowOrNegativeAmountRule at h
  split at h
  · exact PyRes.noConfusion h
  · split at h
    · split at h
      · exact PyRes.noConfusion h
      · split at h
        · cases h
          decide
        · simp at h
    · cases h
      decide

lemma notIncomeKw_emits {t : Txn} {c : SnapClassification}
    (h : NotIncomeKeywordsRule t = .ok (some c)) : c ∈ incomeOutputs := by
  unfold NotIncomeKeywordsRule at h
  split at h
  · cases h
    decide
  · simp at h

lemma excludeKw_emits {t : Txn} {c : SnapClassification}
    (h : ExcludeKeywordsRule t = .ok (some c)) : c ∈ incomeOutputs := by
  unfold ExcludeKeywordsRule at h
  split at h
  · cases h
    decide
  · simp at h

lemma earned_emits {t : Txn} {c : SnapClassification}
    (h : EarnedIncomeRule t = .ok (some c)) : c ∈ incomeOutputs := by
  unfold EarnedIncomeRule at h
  split at h
  · exact PyRes.noConfusion h
  · split at h
    · cases h
      decide
    · simp at h

lemma unearned_emits {t : Txn} {c : SnapClassification}
    (h : UnearnedIncomeRule t = .ok (some c)) : c ∈ incomeOutputs := by
  unfold UnearnedIncomeRule at h
  split at h
  · cases h
    decide
  · simp at h

lemma bankInterest_emits {t : Txn} {c : SnapClassification}
    (h : BankInterestRule t = .ok (some c)) : c ∈ incomeOutputs := by
  unfold BankInterestRule at h
  split at h
  · exact PyRes.noConfusion h
  · split at h
    · cases h
      decide
    · simp at h

lemma gift_emits {t : Txn} {c : SnapClassification}
    (h : GiftOrIrregularRule t = .ok (some c)) : c ∈ incomeOutputs := by
  unfold GiftOrIrregularRule at h
  split at h
  · cases h
    decide
  · simp at h

lemma runIncomeRules_emits (rules : List (Txn → PyRes (Option SnapClassification)))
    (hall : ∀ r ∈ rules, ∀ t c, r t = .ok (some c) → c ∈ incomeOutputs) :
    ∀ t c, runIncomeRules rules t = .ok c → c ∈ incomeOutputs := by
  induction rules with
  | nil =>
      intro t c h
      unfold runIncomeRules at h
      cases h
      unfold DefaultIncomeRule
      decide
  | cons r rs ih =>
      intro t c h
      cases hrt : r t with
      | exn e =>
          rw [runInc_exn hrt] at h
          exact PyRes.noConfusion h
      | ok o =>
          cases o with
          | some c0 =>
              rw [runInc_some hrt] at h
              cases h
              exact hall r (List.mem_cons_self r rs) t _ hrt
          | none =>
              rw [runInc_none hrt] at h
              exact ih (fun r2 hr2 => hall r2 (List.mem_cons_of_mem r hr2)) t c h

lemma classify_income_emits (t : Txn) (c : SnapClassification)
    (h : classify_income t = .ok c) : c ∈ incomeOutputs := by
  refine runIncomeRules_emits INCOME_RULES ?_ t c h
  intro r hr
  simp only [INCOME_RULES, List.mem_cons, List.not_mem_nil, or_false] at hr
  rcases hr with rfl | rfl | rfl | rfl | rfl | rfl | rfl
  · exact fun t c h => rule1_emits h
  · exact fun t c h => notIncomeKw_emits h
  · exact fun t c h => excludeKw_emits h
  · exact fun t c h => earned_emits h
  · exact fun t c h => unearned_emits h
  · exact fun t c h => bankInterest_emits h
  · exact fun t c h => gift_emits h

lemma missingAmount_emits {t : Txn} {c : ExpenseClassification}
    (h : MissingAmountRule t = .ok (some c)) : c ∈ expenseOutputs := by
  unfold MissingAmountRule at h
  split at h
  · cases h
    decide
  · simp at h

lemma notExpense_emits {t : Txn} {c : ExpenseClassification}
    (h : NotExpenseRule t = .ok (some c)) : c ∈ expenseOutputs := by
  unfold NotExpenseRule at h
  split at h
  · exact PyRes.noConfusion h
  · split at h
    · exact PyRes.noConfusion h
    · split at h
      · cases h
        decide
      · simp at h

lemma transferKw_emits {t : Txn} {c : ExpenseClassification}
    (h : TransferKeywordsRule t = .ok (some c)) : c ∈ expenseOutputs := by
  unfold TransferKeywordsRule at h
  split at h
  · cases h
    decide
  · simp at h

lemma creditCard_emits {t : Txn} {c : ExpenseClassification}
    (h : CreditCardPaymentRule t = .ok (some c)) : c ∈ expenseOutputs := by
  unfold CreditCardPaymentRule at h
  split at h
  · cases h
    decide
  · simp at h

lemma shelter_emits {t : Txn} {c : ExpenseClassification}
    (h : ShelterRule t = .ok (some c)) : c ∈ expenseOutputs := by
  simp only [ShelterRule] at h
  split at h
  · exact PyRes.noConfusion h
  · split at h
    · split at h
      · cases h
        decide
      · cases h
        decide
    · simp at h

lemma utilities_emits {t : Txn} {c : ExpenseClassification}
    (h : UtilitiesRule t = .ok (some c)) : c ∈ expenseOutputs := by
  simp only [UtilitiesRule] at h
  split at h
  · split at h
    · cases h
      decide
    · split at h
      · cases h
        decide
      · split at h
        · cases h
          decide
        · cases h
          decide
  · simp at h

lemma childcare_emits {t : Txn} {c : ExpenseClassification}
    (h : ChildcareRule t = .ok (some c)) : c ∈ expenseOutputs := by
  unfold ChildcareRule at h
  split at h
  · cases h
    decide
  · simp at h

lemma medical_emits {t : Txn} {c : ExpenseClassification}
    (h : MedicalRule t = .ok (some c)) : c ∈ expenseOutputs := by
  unfold MedicalRule at h
  split at h
  · cases h
    decide
  · simp at h

lemma childSupport_emits {t : Txn} {c : ExpenseClassification}
    (h : ChildSupportRule t = .ok (some c)) : c ∈ expenseOutputs := by
  unfold ChildSupportRule at h
  split at h
  · cases h
    decide
  · simp at h

lemma runExpenseRules_emits (rules : List (Txn → PyRes (Option ExpenseClassification)))
    (hall : ∀ r ∈ rules, ∀ t c, r t = .ok (some c) → c ∈ expenseOutputs) :
    ∀ t c, runExpenseRules rules t = .ok c → c ∈ expenseOutputs := by
  induction rules with
  | nil =>
      intro t c h
      unfold runExpenseRules at h
      cases h
      unfold DefaultExpenseRule
      decide
  | cons r rs ih =>
      intro t c h
      cases hrt : r t with
      | exn e =>
          rw [runExp_exn hrt] at h
          exact PyRes.noConfusion h
      | ok o =>
          cases o with
          | some c0 =>
              rw [runExp_some hrt] at h
              cases h
              exact hall r (List.mem_cons_self r rs) t _ hrt
          | none =>
              rw [runExp_none hrt] at h
              exact ih (fun r2 hr2 => hall r2 (List.mem_cons_of_mem r hr2)) t c h

lemma classify_expense_emits (t : Txn) (c : ExpenseClassification)
    (h : classify_expense t = .ok c) : c ∈ expenseOutputs := by
  refine runExpenseRules_emits EXPENSE_RULES ?_ t c h
  intro r hr
  simp only [EXPENSE_RULES, List.mem_cons, List.not_mem_nil, or_false] at hr
  rcases hr with rfl | rfl | rfl | rfl | rfl | rfl | rfl | rfl | rfl
  · exact fun t c h => missingAmount_emits h
  · exact fun t c h => notExpense_emits h
  · exact fun t c h => transferKw_emits h
  · exact fun t c h => creditCard_emits h
  · exact fun t c h => shelter_emits h
  · exact fun t c h => utilities_emits h
  · exact fun t c h => childcare_emits h
  · exact fun t c h => medical_emits h
  · exact fun t c h => childSupport_emits h

/-- C9: every classification either classifier returns carries a reason_code
that is present and a non-empty string (its final_state lies in the
respective result enum by the typing of the embedding). -/
theorem C9_reason_code_nonempty :
    (∀ t c, classify_income t = .ok c →
      c.reason_code ≠ Option.none ∧ c.reason_code ≠ some []) ∧
    (∀ t c, classify_expense t = .ok c →
      c.reason_code ≠ Option.none ∧ c.reason_code ≠ some []) := by
  constructor
  · intro t c h
    have hm := classify_income_emits t c h
    simp only [incomeOutputs, List.mem_cons, List.not_mem_nil, or_false] at hm
    rcases hm with rfl | rfl | rfl | rfl | rfl | rfl | rfl | rfl | rfl
    all_goals exact ⟨by decide, by decide⟩
  · intro t c h
    have hm := classify_expense_emits t c h
    simp only [expenseOutputs, List.mem_cons, List.not_mem_nil, or_false] at hm
    rcases hm with rfl | rfl | rfl | rfl | rfl | rfl | rfl | rfl | rfl | rfl | rfl | rfl | rfl | rfl
    all_goals exact ⟨by decide, by decide⟩

/-- Witness for C9: the default verdicts on concrete inputs carry non-empty
reason codes. -/
theorem C9_witness :
    (⟨.FLAG_FOR_REVIEW, Option.none, Option.none, some (pys ("UNKNOWN_SOURCE")), .LOW⟩
        : SnapClassification).reason_code ≠ some [] ∧
    (⟨.NOT_DEDUCTIBLE, Option.none, Option.none, some (pys ("NOT_A_COUNTABLE_DEDUCTION")), .MEDIUM⟩
        : ExpenseClassification).reason_code ≠ some [] :=
  ⟨(C9_reason_code_nonempty.1 inflowPlainTxn _ (by decide)).2,
   (C9_reason_code_nonempty.2 plainOutflowTxn _ (by decide)).2⟩

/-- C10: classify_income never returns EXCLUDED_INCOME; every returned
final_state is COUNTABLE_INCOME, NOT_INCOME or FLAG_FOR_REVIEW. -/
theorem C10_no_excluded_income (t : Txn) (c : SnapClassification)
    (h : classify_income t = .ok c) :
    c.final_state ≠ .EXCLUDED_INCOME ∧
    (c.final_state = .COUNTABLE_INCOME ∨ c.final_state = .NOT_INCOME ∨
      c.final_state = .FLAG_FOR_REVIEW) := by
  have hm := classify_income_emits t c h
  simp only [incomeOutputs, List.mem_cons, List.not_mem_nil, or_false] at hm
  rcases hm with rfl | rfl | rfl | rfl | rfl | rfl | rfl | rfl | rfl
  all_goals exact ⟨by decide, by decide⟩

/-- Witness for C10: the concrete inflow's verdict is not EXCLUDED_INCOME. -/
theorem C10_witness :
    (⟨.FLAG_FOR_REVIEW, Option.none, Option.none, some (pys ("UNKNOWN_SOURCE")), .LOW⟩
        : SnapClassification).final_state ≠ .EXCLUDED_INCOME :=
  (C10_no_excluded_income inflowPlainTxn _ (by decide)).1

lemma isSpace_lowerChar (c : Nat) : isSpaceChar (lowerChar c) = isSpaceChar c := by
  unfold lowerChar isSpaceChar
  split
  · rw [decide_eq_decide]
    omega
  · rfl

lemma dropWhile_map_lower (l : PyStr) :
    (l.map lowerChar).dropWhile isSpaceChar = (l.dropWhile isSpaceChar).map lowerChar := by
  induction l with
  | nil => rfl
  | cons a l ih =>
      simp only [List.map_cons, List.dropWhile_cons, isSpace_lowerChar]
      split
      · exact ih
      · simp

lemma pyStrip_pyLower (s : PyStr) : pyStrip (pyLower s) = pyLower (pyStrip s) := by
  unfold pyStrip pyLower
  rw [dropWhile_map_lower, ← List.map_reverse, dropWhile_map_lower, ← List.map_reverse]

lemma norm_congr {s1 s2 : PyStr} (h : pyLower s1 = pyLower s2) :
    pyLower (pyStrip s1) = pyLower (pyStrip s2) := by
  rw [← pyStrip_pyLower, ← pyStrip_pyLower, h]

lemma descNorm_setDesc (t : Txn) (s : PyStr) :
    (setDesc t (.val s)).descNorm = pyLower (pyStrip s) := rfl

lemma rule1_setDesc (t : Txn) (d1 d2 : Fld PyStr) :
    NotInflowOrNegativeAmountRule (setDesc t d1) = NotInflowOrNegativeAmountRule (setDesc t d2) := rfl

lemma notIncomeKw_setDesc (t : Txn) {s1 s2 : PyStr}
    (h : pyLower (pyStrip s1) = pyLower (pyStrip s2)) :
    NotIncomeKeywordsRule (setDesc t (.val s1)) = NotIncomeKeywordsRule (setDesc t (.val s2)) := by
  unfold NotIncomeKeywordsRule
  rw [descNorm_setDesc, descNorm_setDesc, h]

lemma excludeKw_setDesc (t : Txn) {s1 s2 : PyStr}
    (h : pyLower (pyStrip s1) = pyLower (pyStrip s2)) :
    ExcludeKeywordsRule (setDesc t (.val s1)) = ExcludeKeywordsRule (setDesc t (.val s2)) := by
  unfold ExcludeKeywordsRule
  rw [descNorm_setDesc, descNorm_setDesc, h]

lemma earned_setDesc (t : Txn) {s1 s2 : PyStr}
    (h : pyLower (pyStrip s1) = pyLower (pyStrip s2)) :
    EarnedIncomeRule (setDesc t (.val s1)) = EarnedIncomeRule (setDesc t (.val s2)) := by
  unfold EarnedIncomeRule
  rw [descNorm_setDesc, descNorm_setDesc, h]
  exact rfl

lemma unearned_setDesc (t : Txn) {s1 s2 : PyStr}
    (h : pyLower (pyStrip s1) = pyLower (pyStrip s2)) :
    UnearnedIncomeRule (setDesc t (.val s1)) = UnearnedIncomeRule (setDesc t (.val s2)) := by
  unfold UnearnedIncomeRule
  rw [descNorm_setDesc, descNorm_setDesc, h]

lemma bankInterest_setDesc (t : Txn) {s1 s2 : PyStr}
    (h : pyLower (pyStrip s1) = pyLower (pyStrip s2)) :
    BankInterestRule (setDesc t (.val s1)) = BankInterestRule (setDesc t (.val s2)) := by
  unfold BankInterestRule
  rw [descNorm_setDesc, descNorm_setDesc, h]
  exact rfl

lemma gift_setDesc (t : Txn) {s1 s2 : PyStr}
    (h : pyLower (pyStrip s1) = pyLower (pyStrip s2)) :
    GiftOrIrregularRule (setDesc t (.val s1)) = GiftOrIrregularRule (setDesc t (.val s2)) := by
  unfold GiftOrIrregularRule
  rw [descNorm_setDesc, descNorm_setDesc, h]

lemma missingAmount_setDesc (t : Txn) (d1 d2 : Fld PyStr) :
    MissingAmountRule (setDesc t d1) = MissingAmountRule (setDesc t d2) := rfl

lemma notExpense_setDesc (t : Txn) (d1 d2 : Fld PyStr) :
    NotExpenseRule (setDesc t d1) = NotExpenseRule (setDesc t d2) := rfl

lemma transferKw_setDesc (t : Txn) {s1 s2 : PyStr}
    (h : pyLower (pyStrip s1) = pyLower (pyStrip s2)) :
    TransferKeywordsRule (setDesc t (.val s1)) = TransferKeywordsRule (setDesc t (.val s2)) := by
  unfold TransferKeywordsRule
  rw [descNorm_setDesc, descNorm_setDesc, h]

lemma creditCard_setDesc (t : Txn) {s1 s2 : PyStr}
    (h : pyLower (pyStrip s1) = pyLower (pyStrip s2)) :
    CreditCardPaymentRule (setDesc t (.val s1)) = CreditCardPaymentRule (setDesc t (.val s2)) := by
  unfold CreditCardPaymentRule
  rw [descNorm_setDesc, descNorm_setDesc, h]

lemma shelter_setDesc (t : Txn) {s1 s2 : PyStr}
    (h : pyLower (pyStrip s1) = pyLower (pyStrip s2)) :
    ShelterRule (setDesc t (.val s1)) = ShelterRule (setDesc t (.val s2)) := by
  unfold ShelterRule
  rw [descNorm_setDesc, descNorm_setDesc, h]
  exact rfl

lemma utilities_setDesc (t : Txn) {s1 s2 : PyStr}
    (h : pyLower (pyStrip s1) = pyLower (pyStrip s2)) :
    UtilitiesRule (setDesc t (.val s1)) = UtilitiesRule (setDesc t (.val s2)) := by
  unfold UtilitiesRule
  rw [descNorm_setDesc, descNorm_setDesc, h]
  exact rfl

lemma childcare_setDesc (t : Txn) {s1 s2 : PyStr}
    (h : pyLower (pyStrip s1) = pyLower (pyStrip s2)) :
    ChildcareRule (setDesc t (.val s1)) = ChildcareRule (setDesc t (.val s2)) := by
  unfold ChildcareRule
  rw [descNorm_setDesc, descNorm_setDesc, h]

lemma medical_setDesc (t : Txn) {s1 s2 : PyStr}
    (h : pyLower (pyStrip s1) = pyLower (pyStrip s2)) :
    MedicalRule (setDesc t (.val s1)) = MedicalRule (setDesc t (.val s2)) := by
  unfold MedicalRule
  rw [descNorm_setDesc, descNorm_setDesc, h]

lemma childSupport_setDesc (t : Txn) {s1 s2 : PyStr}
    (h : pyLower (pyStrip s1) = pyLower (pyStrip s2)) :
    ChildSupportRule (setDesc t (.val s1)) = ChildSupportRule (setDesc t (.val s2)) := by
  unfold ChildSupportRule
  rw [descNorm_setDesc, descNorm_setDesc, h]

lemma runIncomeRules_congr (rules : List (Txn → PyRes (Option SnapClassification)))
    (t1 t2 : Txn) (hall : ∀ r ∈ rules, r t1 = r t2) :
    runIncomeRules rules t1 = runIncomeRules rules t2 := by
  induction rules with
  | nil => simp [runIncomeRules, DefaultIncomeRule]
  | cons r rs ih =>
      have h1 := hall r (List.mem_cons_self r rs)
      simp only [runIncomeRules, h1]
      cases r t2 with
      | exn e => rfl
      | ok o =>
          cases o with
          | some c => rfl
          | none => exact ih (fun r2 hr2 => hall r2 (List.mem_cons_of_mem r hr2))

lemma runExpenseRules_congr (rules : List (Txn → PyRes (Option ExpenseClassification)))
    (t1 t2 : Txn) (hall : ∀ r ∈ rules, r t1 = r t2) :
    runExpenseRules rules t1 = runExpenseRules rules t2 := by
  induction rules with
  | nil => simp [runExpenseRules, DefaultExpenseRule]
  | cons r rs ih =>
      have h1 := hall r (List.mem_cons_self r rs)
      simp only [runExpenseRules, h1]
      cases r t2 with
      | exn e => rfl
      | ok o =>
          cases o with
          | some c => rfl
          | none => exact ih (fun r2 hr2 => hall r2 (List.mem_cons_of_mem r hr2))

/-- C8: replacing the description by any case variant of the same string
(same lower-casing) yields identical results from both classifiers; keyword
matching only sees the trimmed, lower-cased description. -/
theorem C8_case_insensitive_description (t : Txn) (s1 s2 : PyStr)
    (h : pyLower s1 = pyLower s2) :
    classify_income (setDesc t (.val s1)) = classify_income (setDesc t (.val s2)) ∧
    classify_expense (setDesc t (.val s1)) = classify_expense (setDesc t (.val s2)) := by
  have hn : pyLower (pyStrip s1) = pyLower (pyStrip s2) := norm_congr h
  constructor
  · unfold classify_income
    refine runIncomeRules_congr INCOME_RULES _ _ ?_
    intro r hr
    simp only [INCOME_RULES, List.mem_cons, List.not_mem_nil, or_false] at hr
    rcases hr with rfl | rfl | rfl | rfl | rfl | rfl | rfl
    · exact rule1_setDesc t _ _
    · exact notIncomeKw_setDesc t hn
    · exact excludeKw_setDesc t hn
    · exact earned_setDesc t hn
    · exact unearned_setDesc t hn
    · exact bankInterest_setDesc t hn
    · exact gift_setDesc t hn
  · unfold classify_expense
    refine runExpenseRules_congr EXPENSE_RULES _ _ ?_
    intro r hr
    simp only [EXPENSE_RULES, List.mem_cons, List.not_mem_nil, or_false] at hr
    rcases hr with rfl | rfl | rfl | rfl | rfl | rfl | rfl | rfl | rfl
    · exact missingAmount_setDesc t _ _
    · exact notExpense_setDesc t _ _
    · exact transferKw_setDesc t hn
    · exact creditCard_setDesc t hn
    · exact shelter_setDesc t hn
    · exact utilities_setDesc t hn
    · exact childcare_setDesc t hn
    · exact medical_setDesc t hn
    · exact childSupport_setDesc t hn

/-- Witness for C8: "RENT PAYMENT" and "rent payment" classify identically. -/
theorem C8_witness :
    classify_income (setDesc emptyTxn (.val (pys ("RENT PAYMENT")))) =
      classify_income (setDesc emptyTxn (.val (pys ("rent payment")))) ∧
    classify_expense (setDesc emptyTxn (.val (pys ("RENT PAYMENT")))) =
      classify_expense (setDesc emptyTxn (.val (pys ("rent payment")))) :=
  C8_case_insensitive_description emptyTxn (pys ("RENT PAYMENT")) (pys ("rent payment")) (by decide)

end Snap
